import Mathlib

/-!
# Verification of the uptime-crew location service core

Shallow embedding of the in-memory location / geofencing engine:

* `src/services/locationService.ts` — per-principal current position,
  bounded history, status map, nearby-user query, haversine distance;
* `src/services/geofencingService.ts` — geofence registry, the
  event-driven evaluation (`checkGeofences`), the periodic
  diff-against-snapshot evaluation (`checkGeofence`), cascading delete;
* the socket handler (`handleLocationUpdates`,
  `checkAndEmitProximityAlerts`, `validateLocationData`,
  `findUserSocket`) — boundary validation and proximity-alert
  deduplication state.

Coordinates are embedded as exact rationals (the TypeScript source uses
IEEE doubles; every operation the theorems below depend on — range
comparisons, map/list bookkeeping, set diffs — is exact in both worlds).
JS `Date` values are embedded as `Nat` millisecond clocks threaded in as
a `now` parameter.  JS `Map` objects are embedded as insertion-ordered
association lists (`Map.set` overwrites in place, otherwise appends; this
matches V8 iteration order).  Thrown exceptions are embedded as `Except`.
-/

/-- JS `Map.get`: the value stored under `k`, if any. -/
def mapGet? {β : Type} (m : List (String × β)) (k : String) : Option β :=
  (m.find? (fun p => p.1 = k)).map (fun p => p.2)

/-- JS `Map.set`: overwrite in place if the key is present (iteration
order keeps the original insertion position), append otherwise.  A JS
`Map` holds each key at most once, so replacing the first occurrence is
replacing the only one. -/
def mapSet {β : Type} : List (String × β) → String → β → List (String × β)
  | [], k, v => [(k, v)]
  | p :: t, k, v => if p.1 = k then (k, v) :: t else p :: mapSet t k v

/-- JS `Map.delete` / `Set.delete`: drop the binding for `k`. -/
def mapDelete {β : Type} (m : List (String × β)) (k : String) :
    List (String × β) :=
  m.filter (fun p => ¬ p.1 = k)

/-- JS `Map.values()`, in insertion order. -/
def mapValues {β : Type} (m : List (String × β)) : List β :=
  m.map (fun p => p.2)

/-- JS `new Set(xs)` for strings: keep the first occurrence of each
element, in insertion order. -/
def jsSetOfList (l : List String) : List String :=
  l.foldl (fun acc a => if acc.contains a then acc else acc ++ [a]) []

/-- `LocationData` (src/types): one position report.  `timestamp` is an
optional `Date` (millisecond clock); `accuracy`, `speed`, `heading` are
optional numbers. -/
structure LocationData where
  user_id : String
  latitude : ℚ
  longitude : ℚ
  accuracy : Option ℚ := none
  timestamp : Option Nat := none
  speed : Option ℚ := none
  heading : Option ℚ := none
deriving Repr, DecidableEq

/-- `LocationHistoryEntry` (src/types): a `LocationData` plus the
generated `id` and `updated_at` stamp. -/
structure LocationHistoryEntry where
  user_id : String
  latitude : ℚ
  longitude : ℚ
  accuracy : Option ℚ := none
  timestamp : Option Nat := none
  speed : Option ℚ := none
  heading : Option ℚ := none
  id : String
  updated_at : Nat
deriving Repr, DecidableEq

/-- The three in-memory maps of `LocationService`. -/
structure LocationService where
  userLocations : List (String × LocationData) := []
  locationHistory : List (String × List LocationHistoryEntry) := []
  userStatus : List (String × String) := []
deriving Repr, DecidableEq

/-- The `location` object built inside `updateUserLocation`:
`timestamp: timestamp || new Date()` (a `Date` object is always truthy,
so a provided timestamp is kept and a missing one is replaced by `now`). -/
def storedLocation (locationData : LocationData) (now : Nat) : LocationData :=
  { locationData with timestamp := some (locationData.timestamp.getD now) }

/-- The history entry `{...location, id: user_id_Date.now(), updated_at}`
appended by `updateUserLocation`. -/
def toHistoryEntry (locationData : LocationData) (now : Nat) :
    LocationHistoryEntry :=
  let location := storedLocation locationData now
  { user_id := location.user_id
    latitude := location.latitude
    longitude := location.longitude
    accuracy := location.accuracy
    timestamp := location.timestamp
    speed := location.speed
    heading := location.heading
    id := location.user_id ++ "_" ++ toString now
    updated_at := now }

/-- `history.splice(0, history.length - 100)` keeps the last 100 entries.
For lists of at most 100 entries `l.length - 100 = 0` in `Nat`, so the
unconditional `drop` agrees with the source's `if length > 100` guard. -/
def keepLast100 (l : List LocationHistoryEntry) : List LocationHistoryEntry :=
  l.drop (l.length - 100)

/-- `LocationService.updateUserLocation` (locationService.ts:23-96).
Validates `!user_id` (empty string is falsy) and the coordinate ranges,
then stores the current position, appends to the bounded history and
marks the principal online.  Throws are embedded as `Except.error`; the
source performs no writes before its validations, so an error leaves the
service value untouched. -/
def updateUserLocation (svc : LocationService) (locationData : LocationData)
    (now : Nat) : Except String (LocationService × LocationData) :=
  if locationData.user_id = "" then
    .error "Invalid location data"
  else if locationData.latitude < -90 ∨ locationData.latitude > 90 ∨
      locationData.longitude < -180 ∨ locationData.longitude > 180 then
    .error "Invalid coordinates"
  else
    let location := storedLocation locationData now
    let userLocations := mapSet svc.userLocations locationData.user_id location
    let historyEntry := toHistoryEntry locationData now
    let oldHistory := (mapGet? svc.locationHistory locationData.user_id).getD []
    let newHistory := keepLast100 (oldHistory ++ [historyEntry])
    let locationHistory :=
      mapSet svc.locationHistory locationData.user_id newHistory
    let userStatus := mapSet svc.userStatus locationData.user_id "online"
    .ok ({ userLocations := userLocations, locationHistory := locationHistory
           userStatus := userStatus }, location)

/-- `LocationService.getUserLocation` (locationService.ts:99-107). -/
def getUserLocation (svc : LocationService) (userId : String) :
    Option LocationData :=
  mapGet? svc.userLocations userId

/-- The raw stored history list for one principal (the
`locationHistory.get(userId) || []` read used by
`getUserLocationHistory`). -/
def storedHistory (svc : LocationService) (userId : String) :
    List LocationHistoryEntry :=
  (mapGet? svc.locationHistory userId).getD []

/-- `LocationService.getAllUserLocations` (locationService.ts:124-131). -/
def getAllUserLocations (svc : LocationService) : List LocationData :=
  mapValues svc.userLocations

/-- `LocationService.getUserStatus` (locationService.ts:205-212). -/
def getUserStatus (svc : LocationService) (userId : String) : String :=
  (mapGet? svc.userStatus userId).getD "unknown"

/-- JS `Math.round` on a non-negative distance: round half up. -/
def jsRound {α : Type} [LinearOrderedField α] [FloorRing α] (x : α) : ℤ :=
  ⌊x + 1/2⌋

/-- A `LocationData` annotated with its rounded `distance`, as pushed by
`getNearbyUsers`. -/
structure NearbyUser where
  location : LocationData
  distance : ℤ
deriving Repr, DecidableEq

/-- The skip test `excludeUserId && location.user_id === excludeUserId`
at the top of the `getNearbyUsers` loop: an absent or empty (falsy)
`excludeUserId` excludes nobody. -/
def excludedFromNearby (excludeUserId : Option String)
    (location : LocationData) : Bool :=
  match excludeUserId with
  | none => false
  | some ex => ex ≠ "" && location.user_id = ex

/-- `LocationService.getNearbyUsers` (locationService.ts:134-170),
stated for an arbitrary ordered-field-valued distance function standing
for `this.calculateDistance` (the real-valued haversine
`calculateDistance` below instantiates `α := ℝ`; rational test distances
instantiate `α := ℚ`).  The comparator `(a, b) => a.distance - b.distance`
orders by the rounded `distance` field. -/
def getNearbyUsers {α : Type} [LinearOrderedField α] [FloorRing α]
    (dist : ℚ → ℚ → ℚ → ℚ → α) (svc : LocationService)
    (latitude longitude : ℚ) (radius : α) (excludeUserId : Option String) :
    List NearbyUser :=
  let nearbyUsers := (mapValues svc.userLocations).filterMap fun location =>
    if excludedFromNearby excludeUserId location then none
    else
      let d := dist latitude longitude location.latitude location.longitude
      if d ≤ radius then
        some { location := location, distance := jsRound d }
      else none
  nearbyUsers.mergeSort (fun a b => a.distance ≤ b.distance)

/-- `LocationService.calculateDistance` (locationService.ts:173-192):
haversine with mean Earth radius `6371e3` m. -/
noncomputable def calculateDistance (lat1 lon1 lat2 lon2 : ℝ) : ℝ :=
  let R : ℝ := 6371e3
  let φ1 := lat1 * Real.pi / 180
  let φ2 := lat2 * Real.pi / 180
  let dPhi := (lat2 - lat1) * Real.pi / 180
  let dLam := (lon2 - lon1) * Real.pi / 180
  let a := Real.sin (dPhi / 2) * Real.sin (dPhi / 2) +
    Real.cos φ1 * Real.cos φ2 * Real.sin (dLam / 2) * Real.sin (dLam / 2)
  let c := 2 * Real.arctan (Real.sqrt a / Real.sqrt (1 - a))
  R * c

/-- The position payload received on the `update_location` socket event
(the client-controlled fields; `user_id` is taken from the authenticated
socket, not from the payload). -/
structure IncomingLocation where
  latitude : ℚ
  longitude : ℚ
  accuracy : Option ℚ := none
  timestamp : Option Nat := none
  speed : Option ℚ := none
  heading : Option ℚ := none
deriving Repr, DecidableEq

/-- `SocketHandler.validateLocationData` (socketHandler.ts:188-209 and
the unnamed socket handler, lines 263-284).  The accuracy clause
`if (accuracy && (... || accuracy < 0))` only fires when `accuracy` is
truthy, i.e. present and non-zero. -/
def validateLocationData (data : IncomingLocation) : Bool :=
  if data.latitude < -90 ∨ data.latitude > 90 ∨
      data.longitude < -180 ∨ data.longitude > 180 then
    false
  else
    match data.accuracy with
    | none => true
    | some a => if a ≠ 0 ∧ a < 0 then false else true

/-- The body of the `update_location` handler installed by
`handleLocationUpdates` (unnamed socket handler, lines 88-147), up to and
including the `locationService.updateUserLocation` call: validate the
payload, build the `locationData` for the authenticated principal, record
it.  On a validation failure the handler emits `location_error` and
returns before touching the store; on an `updateUserLocation` throw the
handler's `catch` leaves the store as the throwing call left it (the
source validates before its first write, so it is unchanged). -/
def handleUpdateLocation (svc : LocationService) (userId : String)
    (data : IncomingLocation) (now : Nat) :
    LocationService × Except String LocationData :=
  if validateLocationData data = false then
    (svc, .error "Invalid location data")
  else
    let locationData : LocationData :=
      { user_id := userId
        latitude := data.latitude
        longitude := data.longitude
        accuracy := data.accuracy
        timestamp := some (data.timestamp.getD now)
        speed := data.speed
        heading := data.heading }
    match updateUserLocation svc locationData now with
    | .error e => (svc, .error e)
    | .ok (svc', location) => (svc', .ok location)

/-- `Geofence` (src/types) plus the `serviceRequestId` field attached
dynamically by `createServiceRequestGeofence` (`(geofence as any)
.serviceRequestId`), absent (`none`) for plain geofences. -/
structure Geofence where
  id : String
  name : String
  description : String := ""
  latitude : ℚ
  longitude : ℚ
  radius : ℚ
  created_by : String := ""
  is_active : Bool := true
  serviceRequestId : Option String := none
deriving Repr, DecidableEq

/-- `GeofenceEvent.type` (src/types). -/
inductive EventType where
  | entry
  | exit
  | location_update
deriving Repr, DecidableEq

/-- `GeofenceEvent` (src/types). -/
structure GeofenceEvent where
  type : EventType
  geofence_id : String
  geofence_name : String
  user_id : String
  timestamp : Nat
  location : Option (ℚ × ℚ) := none
deriving Repr, DecidableEq

/-- The mutable maps of `GeofencingService` that the claims touch:
the region table, the active-id set, and the per-region membership
snapshot `previousUsersInGeofence`. -/
structure GeofencingService where
  geofences : List (String × Geofence) := []
  activeGeofences : List String := []
  previousUsersInGeofence : List (String × List String) := []
deriving Repr, DecidableEq

/-- `GeofencingService.checkGeofences` (geofencingService.ts:266-297):
the event-driven evaluation of one position update.  It iterates the
region table and, for each active region containing the new point, pushes
one `location_update` event; it never consults or updates
`previousUsersInGeofence` and never produces `entry`/`exit` events.
`isInside` stands for `this.isPointInGeofence` (see
`isPointInGeofenceB`); the theorems below hold for every membership
test. -/
def checkGeofences (isInside : ℚ → ℚ → Geofence → Bool)
    (geofences : List Geofence) (locationData : LocationData) (now : Nat) :
    List GeofenceEvent :=
  geofences.filterMap fun geofence =>
    if geofence.is_active && isInside locationData.latitude
        locationData.longitude geofence then
      some { type := .location_update
             geofence_id := geofence.id
             geofence_name := geofence.name
             user_id := locationData.user_id
             timestamp := now
             location := some (locationData.latitude, locationData.longitude) }
    else none

/-- `GeofencingService.getUsersInGeofence` (geofencingService.ts:100-128)
applied to a point-in-time snapshot `allLocations` of
`getAllUserLocations()`. -/
def getUsersInGeofence (isInside : ℚ → ℚ → Geofence → Bool)
    (allLocations : List LocationData) (geofence : Geofence) :
    List LocationData :=
  allLocations.filter fun location =>
    isInside location.latitude location.longitude geofence

/-- `GeofencingService.checkGeofence` (geofencingService.ts:68-97), the
periodic diff-against-snapshot evaluation of one region: compute the
current membership, diff it against `previousUsers`, replace the
snapshot, and emit one `entry` event per newly-entered principal and one
`exit` event per newly-exited principal (`processGeofenceEvents`,
lines 170-219; its `length > 0` guard is a no-op because when both diff
lists are empty no events are built).  Returns the new snapshot and the
emitted events. -/
def checkGeofence (isInside : ℚ → ℚ → Geofence → Bool) (geofence : Geofence)
    (allLocations : List LocationData) (previousUsers : List String)
    (now : Nat) : List String × List GeofenceEvent :=
  let usersInGeofence := getUsersInGeofence isInside allLocations geofence
  let currentUsers := jsSetOfList (usersInGeofence.map (fun u => u.user_id))
  let newEntries := usersInGeofence.filter fun u =>
    ¬ previousUsers.contains u.user_id
  let exits := previousUsers.filter fun userId =>
    ¬ currentUsers.contains userId
  let entryEvents := newEntries.map fun u =>
    ({ type := .entry, geofence_id := geofence.id
       geofence_name := geofence.name, user_id := u.user_id
       timestamp := now
       location := some (u.latitude, u.longitude) } : GeofenceEvent)
  let exitEvents := exits.map fun userId =>
    ({ type := .exit, geofence_id := geofence.id
       geofence_name := geofence.name, user_id := userId
       timestamp := now } : GeofenceEvent)
  (currentUsers, entryEvents ++ exitEvents)

/-- `GeofencingService.deleteGeofence` (geofencingService.ts:383-401):
`NotFound` for an unknown id, otherwise remove the region from the
table, the active set and the membership snapshot. -/
def deleteGeofence (svc : GeofencingService) (geofenceId : String) :
    Except String GeofencingService :=
  match mapGet? svc.geofences geofenceId with
  | none => .error "Geofence not found"
  | some _ =>
      .ok { geofences := mapDelete svc.geofences geofenceId
            activeGeofences := svc.activeGeofences.filter
              (fun i => ¬ i = geofenceId)
            previousUsersInGeofence :=
              mapDelete svc.previousUsersInGeofence geofenceId }

/-- `GeofencingService.getActiveGeofences` (geofencingService.ts:404-408). -/
def getActiveGeofences (svc : GeofencingService) : List Geofence :=
  svc.activeGeofences.filterMap fun i => mapGet? svc.geofences i

/-- `degreesToRadians` as used by `@turf/turf`'s `distance`.  (turf first
reduces the angle modulo 360°; since the results below feed only squared
sines of half-angles and cosines of whole angles, both 2π-periodic in the
produced radians up to the sign of the sine, that reduction does not
change any value computed here and is omitted.) -/
noncomputable def degreesToRadians (degrees : ℝ) : ℝ :=
  degrees * Real.pi / 180

/-- JS `Math.atan2 (y, x)`. -/
noncomputable def jsAtan2 (y x : ℝ) : ℝ :=
  if 0 < x then Real.arctan (y / x)
  else if x < 0 then
    (if 0 ≤ y then Real.arctan (y / x) + Real.pi
     else Real.arctan (y / x) - Real.pi)
  else
    (if 0 < y then Real.pi / 2
     else if y < 0 then -(Real.pi / 2) else 0)

/-- `turf.point([lon, lat])`: GeoJSON coordinates are longitude first. -/
structure TurfPoint where
  lng : ℝ
  lat : ℝ

/-- `turf.distance(from, to, { units: "meters" })`: haversine distance
on turf's mean Earth radius 6 371 008.8 m
(`radiansToLength(2 * atan2(√a, √(1-a)), "meters")`). -/
noncomputable def turfDistance (fromP toP : TurfPoint) : ℝ :=
  let dLat := degreesToRadians (toP.lat - fromP.lat)
  let dLon := degreesToRadians (toP.lng - fromP.lng)
  let lat1 := degreesToRadians fromP.lat
  let lat2 := degreesToRadians toP.lat
  let a := Real.sin (dLat / 2) ^ 2 +
    Real.sin (dLon / 2) ^ 2 * Real.cos lat1 * Real.cos lat2
  6371008.8 * (2 * jsAtan2 (Real.sqrt a) (Real.sqrt (1 - a)))

/-- `GeofencingService.isPointInGeofence` (geofencingService.ts:131-145):
`turf.distance(center, userPoint) <= geofence.radius` with the region's
center as `from` and the tested point as `to`.  The boundary comparison
is the source's `<=`. -/
noncomputable def isPointInGeofence (pointLat pointLon : ℚ) (g : Geofence) :
    Prop :=
  turfDistance (TurfPoint.mk (g.longitude : ℝ) (g.latitude : ℝ))
      (TurfPoint.mk (pointLon : ℝ) (pointLat : ℝ)) ≤ (g.radius : ℝ)

/-- `isPointInGeofence` as the boolean the source returns (`Real`
comparison decided classically). -/
noncomputable def isPointInGeofenceB (pointLat pointLon : ℚ)
    (g : Geofence) : Bool :=
  decide (turfDistance (TurfPoint.mk (g.longitude : ℝ) (g.latitude : ℝ))
    (TurfPoint.mk (pointLon : ℝ) (pointLat : ℝ)) ≤ (g.radius : ℝ))

/-- The great-circle (haversine) distance in meters from a point to a
region's center, written directly from the claim: standard haversine of
(lat1, lon1) and (lat2, lon2) on the mean Earth radius used by the
point-in-region test. -/
noncomputable def haversineDistanceMeters (lat1 lon1 lat2 lon2 : ℝ) : ℝ :=
  let φ1 := lat1 * Real.pi / 180
  let φ2 := lat2 * Real.pi / 180
  let dPhi := (lat2 - lat1) * Real.pi / 180
  let dLam := (lon2 - lon1) * Real.pi / 180
  let a := Real.sin (dPhi / 2) * Real.sin (dPhi / 2) +
    Real.cos φ1 * Real.cos φ2 * Real.sin (dLam / 2) * Real.sin (dLam / 2)
  6371008.8 * (2 * jsAtan2 (Real.sqrt a) (Real.sqrt (1 - a)))

/-- `ConnectedUser` (src/types, unnamed socket handler variant): the
fields the proximity logic reads. -/
structure ConnectedUser where
  id : String
  user_type : String
deriving Repr, DecidableEq

/-- `SocketHandler.findUserSocket` (unnamed socket handler, lines
439-453): the first entry of the `connectedUsers` map (socket-id keyed,
insertion ordered) whose user is in `userIds` and has the wanted type.
Every entry of `connectedUsers` is taken to have a live socket in
`io.sockets.sockets` (the handler maintains the two together). -/
def findUserSocket (connectedUsers : List (String × ConnectedUser))
    (userIds : List String) (userType : String) : Option ConnectedUser :=
  (connectedUsers.find? fun p =>
    userIds.contains p.2.id && p.2.user_type = userType).map (fun p => p.2)

/-- The `userIds.some(...)` role test inside `checkAndEmitProximityAlerts`
(lines 365-377): some member of the region resolves, via the first
matching entry of `connectedUsers.values()`, to the wanted user type. -/
def hasUserOfType (connectedUsers : List (String × ConnectedUser))
    (userIds : List String) (userType : String) : Bool :=
  userIds.any fun userId =>
    match (mapValues connectedUsers).find? (fun u => u.id = userId) with
    | some u => u.user_type = userType
    | none => false

/-- One `proximity_alert` emission: `recipient` is the principal whose
socket the payload was emitted to, `triggered_by` the `currentUser` of
the `checkAndEmitProximityAlerts` call that emitted it. -/
structure ProximityAlert where
  recipient : String
  geofence_id : String
  service_request_id : String
  triggered_by : String
deriving Repr, DecidableEq

/-- The sent-alert marker `proximityAlerts : Map<string, Set<string>>`
(unnamed socket handler, line 16), keyed by geofence id. -/
def AlertState : Type := List (String × List String)

/-- The marker set stored for one region (`proximityAlerts.get(id) ||
new Set()`). -/
def sentAlertsFor (st : AlertState) (geofenceId : String) : List String :=
  (mapGet? st geofenceId).getD []

/-- The loop body of `checkAndEmitProximityAlerts` (unnamed socket
handler, lines 347-432) for a single geofence event.  `geo` is the
geofencing service state consulted through `getActiveGeofences`;
`membership` gives, per region id, the user ids currently inside
(`getUsersInGeofence(...).map(u => u.user_id)` against the location
store at that instant).  The enrichment fetch (`fetchVehicleDetails`,
5s-timeout, best-effort) does not influence whether or to whom an alert
is emitted and is not part of the alert fields modelled here.  Returns
the updated marker map and the alerts emitted for this event. -/
def processProximityEvent (connectedUsers : List (String × ConnectedUser))
    (geo : GeofencingService) (membership : String → List String)
    (currentUser : ConnectedUser) (st : AlertState) (ev : GeofenceEvent) :
    AlertState × List ProximityAlert :=
  if ev.type = .location_update ∨ ev.type = .entry then
    let geofenceId := ev.geofence_id
    match (getActiveGeofences geo).find? (fun g => g.id = geofenceId) with
    | none => (st, [])
    | some geofence =>
      match geofence.serviceRequestId with
      | none => (st, [])
      | some serviceRequestId =>
        let userIds := membership geofenceId
        let hasCustomer := hasUserOfType connectedUsers userIds "customer"
        let hasTechnician := hasUserOfType connectedUsers userIds "technician"
        if hasCustomer && hasTechnician then
          let sentAlerts := sentAlertsFor st geofenceId
          if sentAlerts.contains currentUser.id then (st, [])
          else
            let technicianAlerts :=
              match findUserSocket connectedUsers userIds "technician" with
              | some u =>
                  if currentUser.user_type = "technician" then
                    [({ recipient := u.id, geofence_id := geofenceId
                        service_request_id := serviceRequestId
                        triggered_by := currentUser.id } : ProximityAlert)]
                  else []
              | none => []
            let customerAlerts :=
              match findUserSocket connectedUsers userIds "customer" with
              | some u =>
                  if currentUser.user_type = "customer" then
                    [({ recipient := u.id, geofence_id := geofenceId
                        service_request_id := serviceRequestId
                        triggered_by := currentUser.id } : ProximityAlert)]
                  else []
              | none => []
            (mapSet st geofenceId (sentAlerts ++ [currentUser.id]),
             technicianAlerts ++ customerAlerts)
        else (st, [])
  else (st, [])

/-- `checkAndEmitProximityAlerts`: the `for (const event of
geofenceEvents)` loop, threading the marker map through the events in
order and collecting the emitted alerts in emission order. -/
def checkAndEmitProximityAlerts (connectedUsers : List (String × ConnectedUser))
    (geo : GeofencingService) (membership : String → List String)
    (currentUser : ConnectedUser) (st : AlertState) :
    List GeofenceEvent → AlertState × List ProximityAlert
  | [] => (st, [])
  | ev :: evs =>
      let r := processProximityEvent connectedUsers geo membership
        currentUser st ev
      let rest := checkAndEmitProximityAlerts connectedUsers geo membership
        currentUser r.1 evs
      (rest.1, r.2 ++ rest.2)

/-- The context of one `update_location` handling that reached
`checkAndEmitProximityAlerts`: the connection registry, the geofence
tables, the membership of each region as read from the location store
after the triggering write, the authenticated `currentUser`, and the
events returned by `checkGeofences` for the update. -/
structure ProximityCall where
  connectedUsers : List (String × ConnectedUser)
  geo : GeofencingService
  membership : String → List String
  currentUser : ConnectedUser
  events : List GeofenceEvent

/-- A sequence of position-update handlings, threading the
`proximityAlerts` marker map through the calls in order and collecting
every emitted alert in emission order. -/
def runProximityCalls : List ProximityCall → AlertState →
    AlertState × List ProximityAlert
  | [], st => (st, [])
  | c :: cs, st =>
      let r := checkAndEmitProximityAlerts c.connectedUsers c.geo
        c.membership c.currentUser st c.events
      let rest := runProximityCalls cs r.1
      (rest.1, r.2 ++ rest.2)

theorem mapGet?_mapSet_self {β : Type} (m : List (String × β)) (k : String)
    (v : β) : mapGet? (mapSet m k v) k = some v := by
  induction m with
  | nil => simp [mapSet, mapGet?]
  | cons p t ih =>
      by_cases hp : p.1 = k
      · simp [mapSet, hp, mapGet?, List.find?_cons_of_pos]
      · simp only [mapSet, if_neg hp]
        rw [mapGet?, List.find?_cons_of_neg _ (by simpa using hp)]
        exact ih

theorem mapGet?_mapSet_other {β : Type} (m : List (String × β))
    (k k' : String) (v : β) (h : ¬ k' = k) :
    mapGet? (mapSet m k v) k' = mapGet? m k' := by
  have hkk : ¬ k = k' := fun he => h he.symm
  induction m with
  | nil =>
      simp [mapSet, mapGet?, List.find?_cons_of_neg, hkk]
  | cons p t ih =>
      by_cases hp : p.1 = k
      · have hpk : ¬ p.1 = k' := by rw [hp]; exact hkk
        simp only [mapSet, if_pos hp]
        rw [mapGet?, List.find?_cons_of_neg _ (by simpa using hkk), mapGet?,
          List.find?_cons_of_neg _ (by simpa using hpk)]
      · by_cases hp' : p.1 = k'
        · simp only [mapSet, if_neg hp]
          rw [mapGet?, List.find?_cons_of_pos _ (by simpa using hp'), mapGet?,
            List.find?_cons_of_pos _ (by simpa using hp')]
        · simp only [mapSet, if_neg hp]
          rw [mapGet?, List.find?_cons_of_neg _ (by simpa using hp'), mapGet?,
            List.find?_cons_of_neg _ (by simpa using hp')]
          exact ih

theorem mapGet?_mapDelete_self {β : Type} (m : List (String × β))
    (k : String) : mapGet? (mapDelete m k) k = none := by
  induction m with
  | nil => simp [mapDelete, mapGet?]
  | cons p t ih =>
      by_cases hp : p.1 = k
      · rw [mapDelete] at ih ⊢
        simp only [List.filter_cons, decide_eq_true_eq]
        rw [if_neg (by simp [hp])]
        exact ih
      · simp only [mapDelete, List.filter_cons, decide_eq_true_eq]
        rw [if_pos (by simpa using hp)]
        rw [mapGet?, List.find?_cons_of_neg _ (by simpa using hp)]
        exact ih

theorem not_mem_filter_ne (l : List String) (k : String) :
    ¬ k ∈ l.filter (fun i => ¬ i = k) := by
  intro hmem
  have := (List.mem_filter.mp hmem).2
  simp at this

theorem mem_jsFold_iff (l : List String) (a : String) :
    ∀ acc : List String,
      (a ∈ l.foldl (fun acc b => if acc.contains b then acc
        else acc ++ [b]) acc) ↔ (a ∈ acc ∨ a ∈ l) := by
  induction l with
  | nil => intro acc; simp
  | cons b t ih =>
      intro acc
      by_cases hb : acc.contains b = true
      · rw [List.foldl_cons, if_pos hb, ih]
        have hbmem : b ∈ acc := by simpa using hb
        constructor
        · rintro (h | h)
          · exact Or.inl h
          · exact Or.inr (List.mem_cons_of_mem _ h)
        · rintro (h | h)
          · exact Or.inl h
          · rcases List.mem_cons.mp h with h | h
            · exact Or.inl (h ▸ hbmem)
            · exact Or.inr h
      · rw [List.foldl_cons, if_neg hb, ih]
        constructor
        · rintro (h | h)
          · rcases List.mem_append.mp h with h | h
            · exact Or.inl h
            · exact Or.inr (List.mem_cons.mpr (Or.inl (by simpa using h)))
          · exact Or.inr (List.mem_cons_of_mem _ h)
        · rintro (h | h)
          · exact Or.inl (List.mem_append.mpr (Or.inl h))
          · rcases List.mem_cons.mp h with h | h
            · exact Or.inl (List.mem_append.mpr (Or.inr (by simp [h])))
            · exact Or.inr h

theorem mem_jsSetOfList (l : List String) (a : String) :
    a ∈ jsSetOfList l ↔ a ∈ l := by
  rw [jsSetOfList, mem_jsFold_iff l a []]
  simp

theorem contains_jsSetOfList (l : List String) (a : String) :
    (jsSetOfList l).contains a = l.contains a := by
  unfold List.contains
  rw [List.elem_eq_mem, List.elem_eq_mem]
  by_cases h : a ∈ l
  · simp [h, (mem_jsSetOfList l a).mpr h]
  · rw [decide_eq_false h,
      decide_eq_false (fun hc => h ((mem_jsSetOfList l a).mp hc))]

/-- C5: submitting a position whose latitude is outside [-90,90] or
longitude outside [-180,180], or that carries a negative accuracy, fails
with the `InvalidPosition` rejection (`location_error` with "Invalid
location data") and leaves the location store unchanged.  The accuracy
check lives in the boundary validator `validateLocationData`, which runs
before `updateUserLocation`; `updateUserLocation` itself performs no
write before its own validations. -/
theorem handleUpdateLocation_invalid_rejected (svc : LocationService)
    (userId : String) (data : IncomingLocation) (now : Nat)
    (h : data.latitude < -90 ∨ data.latitude > 90 ∨
      data.longitude < -180 ∨ data.longitude > 180 ∨
      (∃ a, data.accuracy = some a ∧ a < 0)) :
    handleUpdateLocation svc userId data now =
      (svc, .error "Invalid location data") := by
  have hv : validateLocationData data = false := by
    rw [validateLocationData]
    by_cases hr : data.latitude < -90 ∨ data.latitude > 90 ∨
        data.longitude < -180 ∨ data.longitude > 180
    · rw [if_pos hr]
    · rw [if_neg hr]
      rcases h with h | h | h | h | ⟨a, ha, haneg⟩
      · exact absurd (Or.inl h) hr
      · exact absurd (Or.inr (Or.inl h)) hr
      · exact absurd (Or.inr (Or.inr (Or.inl h))) hr
      · exact absurd (Or.inr (Or.inr (Or.inr h))) hr
      · rw [ha]
        simp only []
        rw [if_pos ⟨ne_of_lt haneg, haneg⟩]
  rw [handleUpdateLocation, if_pos hv]

/-- Witness for C5 at Scenario D's input: latitude 91 with valid
longitude is rejected and the empty store stays empty. -/
theorem handleUpdateLocation_invalid_rejected_witness :
    (({ latitude := 91, longitude := 0 } : IncomingLocation).latitude < -90 ∨
      ({ latitude := 91, longitude := 0 } : IncomingLocation).latitude > 90 ∨
      ({ latitude := 91, longitude := 0 } : IncomingLocation).longitude < -180 ∨
      ({ latitude := 91, longitude := 0 } : IncomingLocation).longitude > 180 ∨
      (∃ a, ({ latitude := 91, longitude := 0 } :
        IncomingLocation).accuracy = some a ∧ a < 0)) ∧
    handleUpdateLocation {} "P" { latitude := 91, longitude := 0 } 0 =
      ({}, .error "Invalid location data") :=
  ⟨Or.inr (Or.inl (by norm_num)),
   handleUpdateLocation_invalid_rejected {} "P" _ 0
     (Or.inr (Or.inl (by norm_num)))⟩

/-- C6 counterexample input: the later-timestamped update arrives first. -/
def c6first : LocationData :=
  { user_id := "P", latitude := 1, longitude := 1, timestamp := some 2 }

/-- C6 counterexample input: the earlier-timestamped update arrives
second. -/
def c6second : LocationData :=
  { user_id := "P", latitude := 2, longitude := 2, timestamp := some 1 }

/-- C6 counterexample: record the update carrying timestamp T2 = 2, then
the update carrying T1 = 1; read back the principal's current position's
timestamp. -/
def c6run : Except String (Option (Option Nat)) :=
  (updateUserLocation {} c6first 10).bind fun r =>
    (updateUserLocation r.1 c6second 11).map fun r2 =>
      (getUserLocation r2.1 "P").map fun l => l.timestamp

/-- C6 is false as stated: with both updates successfully recorded in
the order (timestamp 2, then timestamp 1), the current position is the
last-arrived one with timestamp T1 = 1, not the one with the larger
timestamp T2 = 2 — `updateUserLocation` stores with `Map.set`
unconditionally and never compares timestamps. -/
theorem c6_timestamp_counterexample : c6run = .ok (some (some 1)) := by
  rfl

/-- C6 amended: when two updates for the same principal are both
successfully recorded, the current position afterwards is the stored
value of the *last-arrived* update, whatever the two timestamps are
(arrival order wins, not timestamp order). -/
theorem updateUserLocation_last_write_wins (svc s1 s2 : LocationService)
    (a b la lb : LocationData) (n1 n2 : Nat)
    (_ha : updateUserLocation svc a n1 = .ok (s1, la))
    (hb : updateUserLocation s1 b n2 = .ok (s2, lb)) :
    getUserLocation s2 b.user_id = some lb ∧
    lb.timestamp = some (b.timestamp.getD n2) := by
  rw [updateUserLocation] at hb
  split at hb
  · exact absurd hb (by simp)
  · split at hb
    · exact absurd hb (by simp)
    · simp only [Except.ok.injEq, Prod.mk.injEq] at hb
      obtain ⟨hs2, hlb⟩ := hb
      constructor
      · rw [getUserLocation, ← hs2]
        simp only []
        rw [mapGet?_mapSet_self, hlb]
      · rw [← hlb, storedLocation]

/-- The store after the first C6 update. -/
def c6svcAfterFirst : LocationService :=
  { userLocations := [("P", storedLocation c6first 10)]
    locationHistory := [("P", [toHistoryEntry c6first 10])]
    userStatus := [("P", "online")] }

/-- The store after both C6 updates. -/
def c6svcAfterSecond : LocationService :=
  { userLocations := [("P", storedLocation c6second 11)]
    locationHistory := [("P", [toHistoryEntry c6first 10,
      toHistoryEntry c6second 11])]
    userStatus := [("P", "online")] }

/-- Witness for C6's amended theorem: two concrete successful updates;
the second one's stored value (timestamp 1) is current. -/
theorem updateUserLocation_last_write_wins_witness :
    updateUserLocation {} c6first 10 =
      .ok (c6svcAfterFirst, storedLocation c6first 10) ∧
    updateUserLocation c6svcAfterFirst c6second 11 =
      .ok (c6svcAfterSecond, storedLocation c6second 11) ∧
    getUserLocation c6svcAfterSecond "P" =
      some (storedLocation c6second 11) ∧
    (storedLocation c6second 11).timestamp =
      some (c6second.timestamp.getD 11) := by
  refine ⟨by rfl, by rfl, ?_, ?_⟩
  · exact (updateUserLocation_last_write_wins {} c6svcAfterFirst
      c6svcAfterSecond c6first c6second (storedLocation c6first 10)
      (storedLocation c6second 11) 10 11 (by rfl) (by rfl)).1
  · exact (updateUserLocation_last_write_wins {} c6svcAfterFirst
      c6svcAfterSecond c6first c6second (storedLocation c6first 10)
      (storedLocation c6second 11) 10 11 (by rfl) (by rfl)).2

theorem keepLast100_of_le (l : List LocationHistoryEntry)
    (h : l.length ≤ 100) : keepLast100 l = l := by
  rw [keepLast100]
  have h0 : l.length - 100 = 0 := by omega
  rw [h0, List.drop_zero]

theorem keepLast100_length_le (l : List LocationHistoryEntry) :
    (keepLast100 l).length ≤ 100 := by
  rw [keepLast100, List.length_drop]
  omega

theorem keepLast100_append_left (l m : List LocationHistoryEntry) :
    keepLast100 (keepLast100 l ++ m) = keepLast100 (l ++ m) := by
  rcases le_or_lt l.length 100 with h | h
  · rw [keepLast100_of_le l h]
  · unfold keepLast100
    have hlen : (List.drop (l.length - 100) l).length = 100 := by
      rw [List.length_drop]
      omega
    rw [List.length_append, List.length_append, hlen]
    have h1 : (100 + m.length) - 100 = m.length := by omega
    have h2 : (l.length + m.length) - 100 = (l.length - 100) + m.length := by
      omega
    rw [h1, h2, ← List.drop_drop,
      List.drop_append_of_le_length (show l.length - 100 ≤ l.length by omega)]

/-- The service value `updateUserLocation` builds on the success path:
current position replaced, history appended and trimmed to the last 100,
status "online". -/
def stepService (svc : LocationService) (d : LocationData) (now : Nat) :
    LocationService :=
  { userLocations := mapSet svc.userLocations d.user_id (storedLocation d now)
    locationHistory := mapSet svc.locationHistory d.user_id
      (keepLast100 ((mapGet? svc.locationHistory d.user_id).getD []
        ++ [toHistoryEntry d now]))
    userStatus := mapSet svc.userStatus d.user_id "online" }

theorem updateUserLocation_ok (svc : LocationService) (d : LocationData)
    (now : Nat) (h1 : ¬ d.user_id = "")
    (h2 : ¬ (d.latitude < -90 ∨ d.latitude > 90 ∨
      d.longitude < -180 ∨ d.longitude > 180)) :
    updateUserLocation svc d now =
      .ok (stepService svc d now, storedLocation d now) := by
  rw [updateUserLocation, if_neg h1, if_neg h2, stepService]

/-- The sequential application of a batch of position updates, as the
socket handler performs it: each item is one `update_location` handling
at its clock value; a throwing call is caught by the handler and leaves
the store as it was. -/
def recordAll (svc : LocationService) (items : List (LocationData × Nat)) :
    LocationService :=
  items.foldl
    (fun s it =>
      match updateUserLocation s it.1 it.2 with
      | .ok r => r.1
      | .error _ => s)
    svc

/-- An update item that `updateUserLocation` accepts for principal `u`:
non-empty id and in-range coordinates. -/
def validFor (u : String) (it : LocationData × Nat) : Prop :=
  it.1.user_id = u ∧ ¬ u = "" ∧
  ¬ (it.1.latitude < -90 ∨ it.1.latitude > 90 ∨
     it.1.longitude < -180 ∨ it.1.longitude > 180)

instance validForDecidable (u : String) (it : LocationData × Nat) :
    Decidable (validFor u it) :=
  decidable_of_iff (it.1.user_id = u ∧ ¬ u = "" ∧
    ¬ (it.1.latitude < -90 ∨ it.1.latitude > 90 ∨
       it.1.longitude < -180 ∨ it.1.longitude > 180)) Iff.rfl

theorem storedHistory_stepService (svc : LocationService) (d : LocationData)
    (now : Nat) (u : String) (hid : d.user_id = u) :
    storedHistory (stepService svc d now) u =
      keepLast100 (storedHistory svc u ++ [toHistoryEntry d now]) := by
  rw [storedHistory, stepService]
  simp only []
  rw [hid, mapGet?_mapSet_self, Option.getD_some, storedHistory]

theorem storedHistory_recordAll (u : String)
    (items : List (LocationData × Nat)) :
    ∀ svc : LocationService, (∀ it ∈ items, validFor u it) →
      (storedHistory svc u).length ≤ 100 →
      storedHistory (recordAll svc items) u =
        keepLast100 (storedHistory svc u ++
          items.map (fun it => toHistoryEntry it.1 it.2)) := by
  induction items with
  | nil =>
      intro svc _ hlen
      rw [recordAll, List.foldl_nil, List.map_nil, List.append_nil,
        keepLast100_of_le _ hlen]
  | cons it rest ih =>
      intro svc hv hlen
      obtain ⟨hid, hne, hrange⟩ := hv it (List.mem_cons_self it rest)
      have hid' : ¬ it.1.user_id = "" := by rw [hid]; exact hne
      have hstep := updateUserLocation_ok svc it.1 it.2 hid' hrange
      have hfold : recordAll svc (it :: rest) =
          recordAll (stepService svc it.1 it.2) rest := by
        rw [recordAll, List.foldl_cons, hstep, recordAll]
      have hmid := storedHistory_stepService svc it.1 it.2 u hid
      rw [hfold,
        ih (stepService svc it.1 it.2)
          (fun x hx => hv x (List.mem_cons_of_mem it hx))
          (by rw [hmid]; exact keepLast100_length_le _),
        hmid, keepLast100_append_left, List.map_cons, List.append_assoc,
        List.singleton_append]

/-- C7: recording a position and reading the same principal's current
position returns the value `updateUserLocation` stored and returned; and
after more than 100 successful updates for one principal the stored
history holds exactly the most recent 100 entries, in submission order
(FIFO eviction of the oldest).  The `length ≤ 100` hypothesis on the
starting store holds of every reachable store (the empty one included),
since every write trims to at most 100. -/
theorem record_roundtrip_and_bounded_history :
    (∀ (svc : LocationService) (d : LocationData) (now : Nat)
        (s' : LocationService) (loc : LocationData),
      updateUserLocation svc d now = .ok (s', loc) →
      getUserLocation s' d.user_id = some loc) ∧
    (∀ (svc : LocationService) (u : String)
        (items : List (LocationData × Nat)),
      items.length > 100 →
      (∀ it ∈ items, validFor u it) →
      (storedHistory svc u).length ≤ 100 →
      storedHistory (recordAll svc items) u =
        (items.map (fun it => toHistoryEntry it.1 it.2)).drop
          (items.length - 100) ∧
      (storedHistory (recordAll svc items) u).length = 100) := by
  constructor
  · intro svc d now s' loc h
    rw [updateUserLocation] at h
    split at h
    · exact absurd h (by simp)
    · split at h
      · exact absurd h (by simp)
      · simp only [Except.ok.injEq, Prod.mk.injEq] at h
        obtain ⟨hs, hl⟩ := h
        rw [getUserLocation, ← hs]
        simp only []
        rw [mapGet?_mapSet_self, hl]
  · intro svc u items hlen hv hle
    have hmain := storedHistory_recordAll u items svc hv hle
    have hNlen : (items.map (fun it => toHistoryEntry it.1 it.2)).length =
        items.length := List.length_map _ _
    have hdrop : keepLast100 (storedHistory svc u ++
        items.map (fun it => toHistoryEntry it.1 it.2)) =
        (items.map (fun it => toHistoryEntry it.1 it.2)).drop
          (items.length - 100) := by
      rw [keepLast100, List.length_append, hNlen]
      have harith : ((storedHistory svc u).length + items.length) - 100 =
          (storedHistory svc u).length + (items.length - 100) := by omega
      rw [harith, ← List.drop_drop, List.drop_left]
    constructor
    · rw [hmain, hdrop]
    · rw [hmain, hdrop, List.length_drop, hNlen]
      omega

/-- The update item used by the C7 witness. -/
def c7item : LocationData × Nat :=
  ({ user_id := "P", latitude := 1, longitude := 2 }, 5)

/-- The store after the C7 witness's single roundtrip update. -/
def c7svc1 : LocationService :=
  { userLocations := [("P", storedLocation c7item.1 5)]
    locationHistory := [("P", [toHistoryEntry c7item.1 5])]
    userStatus := [("P", "online")] }

/-- Witness for C7: the roundtrip at one concrete update, and the
bounded history for 101 identical valid updates (history keeps the last
100). -/
theorem record_roundtrip_and_bounded_history_witness :
    updateUserLocation {} c7item.1 5 =
      .ok (c7svc1, storedLocation c7item.1 5) ∧
    getUserLocation c7svc1 "P" = some (storedLocation c7item.1 5) ∧
    ((List.replicate 101 c7item).length > 100 ∧
      (∀ it ∈ List.replicate 101 c7item, validFor "P" it) ∧
      (storedHistory {} "P").length ≤ 100) ∧
    storedHistory (recordAll {} (List.replicate 101 c7item)) "P" =
      ((List.replicate 101 c7item).map
        (fun it => toHistoryEntry it.1 it.2)).drop
        ((List.replicate 101 c7item).length - 100) ∧
    (storedHistory (recordAll {} (List.replicate 101 c7item)) "P").length
      = 100 := by
  refine ⟨by rfl, ?_, ⟨by decide, by decide, by decide⟩, ?_, ?_⟩
  · exact record_roundtrip_and_bounded_history.1 {} c7item.1 5 c7svc1
      (storedLocation c7item.1 5) (by rfl)
  · exact (record_roundtrip_and_bounded_history.2 {} "P"
      (List.replicate 101 c7item) (by decide) (by decide) (by decide)).1
  · exact (record_roundtrip_and_bounded_history.2 {} "P"
      (List.replicate 101 c7item) (by decide) (by decide) (by decide)).2

theorem contains_filter_ne_eq_false (l : List String) (k : String) :
    (l.filter (fun i => ¬ i = k)).contains k = false := by
  unfold List.contains
  rw [List.elem_eq_mem]
  exact decide_eq_false (not_mem_filter_ne l k)

/-- The process state the delete claim spans: the geofencing service's
maps together with the socket handler's `proximityAlerts` marker map.
They live in two different singletons; `deleteGeofence` is a method of
the geofencing service and has no access to the socket handler's map. -/
structure SystemState where
  geo : GeofencingService
  proximityAlerts : AlertState

/-- The geofencing service after a successful `deleteGeofence`: the
three removals the source performs. -/
def deletedGeo (geo : GeofencingService) (gid : String) :
    GeofencingService :=
  { geofences := mapDelete geo.geofences gid
    activeGeofences := geo.activeGeofences.filter (fun i => ¬ i = gid)
    previousUsersInGeofence := mapDelete geo.previousUsersInGeofence gid }

/-- `deleteGeofence` as it acts on the whole process state: only the
geofencing service's own maps are touched. -/
def deleteGeofenceSystem (st : SystemState) (geofenceId : String) :
    Except String SystemState :=
  (deleteGeofence st.geo geofenceId).map fun g =>
    { geo := g, proximityAlerts := st.proximityAlerts }

theorem deleteGeofence_found (geo : GeofencingService) (gid : String)
    (g : Geofence) (hg : mapGet? geo.geofences gid = some g) :
    deleteGeofence geo gid = .ok (deletedGeo geo gid) := by
  rw [deleteGeofence, hg, deletedGeo]

/-- C4 amended: deleting a stored region removes its record, its
active-set membership and its membership snapshot, and deleting an
unknown id fails `NotFound`; but the alert-sent marker
(`proximityAlerts`) is left exactly as it was — `deleteGeofence` never
touches it. -/
theorem deleteGeofence_cascade :
    (∀ (st : SystemState) (gid : String),
      (mapGet? st.geo.geofences gid).isSome = true →
      deleteGeofenceSystem st gid =
        .ok { geo := deletedGeo st.geo gid
              proximityAlerts := st.proximityAlerts } ∧
      mapGet? (deletedGeo st.geo gid).geofences gid = none ∧
      (deletedGeo st.geo gid).activeGeofences.contains gid = false ∧
      mapGet? (deletedGeo st.geo gid).previousUsersInGeofence gid = none) ∧
    (∀ (st : SystemState) (gid : String),
      mapGet? st.geo.geofences gid = none →
      deleteGeofenceSystem st gid = .error "Geofence not found") := by
  constructor
  · intro st gid h
    rw [Option.isSome_iff_exists] at h
    obtain ⟨g, hg⟩ := h
    refine ⟨?_, mapGet?_mapDelete_self _ _, contains_filter_ne_eq_false _ _,
      mapGet?_mapDelete_self _ _⟩
    rw [deleteGeofenceSystem, deleteGeofence_found st.geo gid g hg]
    rfl
  · intro st gid h
    rw [deleteGeofenceSystem, deleteGeofence, h]
    rfl

/-- The region of the C4 counterexample. -/
def c4geofence : Geofence :=
  { id := "g1", name := "r", latitude := 0, longitude := 0
    radius := 50, serviceRequestId := some "sr1" }

/-- The C4 counterexample state: one stored, active region "g1" whose
pairing context has already alerted principal "A". -/
def c4state : SystemState :=
  { geo := { geofences := [("g1", c4geofence)]
             activeGeofences := ["g1"]
             previousUsersInGeofence := [("g1", ["A"])] }
    proximityAlerts := [("g1", ["A"])] }

/-- C4 is false as stated: deleting region "g1" succeeds but the
alert-sent marker for "g1" still holds "A" afterwards — the claimed
cascading cleanup of the alert-sent marker does not happen, so a later
region reusing the same pairing context and id would not start with a
clean alert state. -/
theorem c4_marker_survives_delete :
    (deleteGeofenceSystem c4state "g1").map
      (fun st => mapGet? st.proximityAlerts "g1") = .ok (some ["A"]) := by
  rfl

/-- Witness for C4's amended theorem at the concrete state `c4state`
(both the successful-delete half and, for the id "zz" absent from the
table, the `NotFound` half). -/
theorem deleteGeofence_cascade_witness :
    ((mapGet? c4state.geo.geofences "g1").isSome = true ∧
      (deleteGeofenceSystem c4state "g1" =
        .ok { geo := deletedGeo c4state.geo "g1"
              proximityAlerts := c4state.proximityAlerts } ∧
      mapGet? (deletedGeo c4state.geo "g1").geofences "g1" = none ∧
      (deletedGeo c4state.geo "g1").activeGeofences.contains "g1" = false ∧
      mapGet? (deletedGeo c4state.geo "g1").previousUsersInGeofence "g1"
        = none)) ∧
    (mapGet? c4state.geo.geofences "zz" = none ∧
      deleteGeofenceSystem c4state "zz" =
        .error "Geofence not found") :=
  ⟨⟨by rfl, deleteGeofence_cascade.1 c4state "g1" (by rfl)⟩,
   ⟨by rfl, deleteGeofence_cascade.2 c4state "zz" (by rfl)⟩⟩

theorem contains_of_mem (l : List String) (a : String) (h : a ∈ l) :
    l.contains a = true := by
  unfold List.contains
  rw [List.elem_eq_mem]
  exact decide_eq_true h

theorem filter_not_contains_self (C : List String) :
    C.filter (fun uid => ¬ C.contains uid) = [] := by
  rw [List.filter_eq_nil_iff]
  intro a ha
  simpa using ha

theorem filter_not_contains_mapped (W : List LocationData) :
    W.filter (fun u =>
      ¬ (jsSetOfList (W.map (fun x => x.user_id))).contains u.user_id)
      = [] := by
  rw [List.filter_eq_nil_iff]
  intro u hu
  have hmem : u.user_id ∈ jsSetOfList (W.map (fun x => x.user_id)) :=
    (mem_jsSetOfList _ _).mpr (List.mem_map_of_mem _ hu)
  simpa using hmem

/-- C8: running the periodic evaluation of a region a second time
against the same unchanged set of current positions emits zero entry and
zero exit events the second time, for every membership test, region,
position set and starting snapshot: the first run replaces the snapshot
with exactly the current membership, so the second diff is empty on both
sides. -/
theorem checkGeofence_idempotent (isInside : ℚ → ℚ → Geofence → Bool)
    (geofence : Geofence) (allLocations : List LocationData)
    (previousUsers : List String) (n1 n2 : Nat) :
    (checkGeofence isInside geofence allLocations
      (checkGeofence isInside geofence allLocations previousUsers n1).1
      n2).2 = [] := by
  simp only [checkGeofence]
  rw [filter_not_contains_mapped, filter_not_contains_self]
  simp

theorem checkGeofences_mem (isInside : ℚ → ℚ → Geofence → Bool)
    (gfs : List Geofence) (loc : LocationData) (now : Nat)
    (e : GeofenceEvent) (he : e ∈ checkGeofences isInside gfs loc now) :
    e.type = EventType.location_update ∧ ∃ g ∈ gfs, e.geofence_id = g.id := by
  rw [checkGeofences, List.mem_filterMap] at he
  obtain ⟨g, hg, hsome⟩ := he
  by_cases hc : (g.is_active && isInside loc.latitude loc.longitude g) = true
  · rw [if_pos hc] at hsome
    rw [Option.some.injEq] at hsome
    rw [← hsome]
    exact ⟨rfl, ⟨g, hg, rfl⟩⟩
  · rw [if_neg hc] at hsome
    cases hsome

theorem checkGeofences_countP_zero (isInside : ℚ → ℚ → Geofence → Bool)
    (gfs : List Geofence) (loc : LocationData) (now : Nat) (gid : String)
    (hnot : ¬ gid ∈ gfs.map (fun x => x.id)) :
    (checkGeofences isInside gfs loc now).countP
      (fun e => e.geofence_id == gid) = 0 := by
  rw [List.countP_eq_zero]
  intro e he
  obtain ⟨-, g', hg', hid⟩ := checkGeofences_mem isInside gfs loc now e he
  simp only [beq_iff_eq]
  intro hbeq
  exact hnot (hbeq ▸ hid ▸ List.mem_map_of_mem _ hg')

theorem checkGeofences_countP_eq (isInside : ℚ → ℚ → Geofence → Bool)
    (loc : LocationData) (now : Nat) :
    ∀ (gfs : List Geofence) (g : Geofence),
      (gfs.map (fun x => x.id)).Nodup → g ∈ gfs →
      (checkGeofences isInside gfs loc now).countP
          (fun e => e.geofence_id == g.id) =
        if g.is_active && isInside loc.latitude loc.longitude g then 1
        else 0 := by
  intro gfs
  induction gfs with
  | nil => intro g _ hg; cases hg
  | cons h t ih =>
      intro g hnd hg
      have hnd' : ¬ h.id ∈ t.map (fun x => x.id) ∧
          (t.map (fun x => x.id)).Nodup := by
        rw [List.map_cons, List.nodup_cons] at hnd
        exact hnd
      rcases List.mem_cons.mp hg with hgh | hgt
      · subst hgh
        by_cases hc : (g.is_active && isInside loc.latitude
            loc.longitude g) = true
        · rw [checkGeofences, List.filterMap_cons, if_pos hc]
          rw [List.countP_cons]
          rw [← checkGeofences]
          rw [checkGeofences_countP_zero isInside t loc now g.id hnd'.1]
          simp [hc]
        · rw [checkGeofences, List.filterMap_cons, if_neg hc]
          rw [← checkGeofences]
          rw [checkGeofences_countP_zero isInside t loc now g.id hnd'.1]
          simp [hc]
      · have hne : (h.id == g.id) = false := by
          rw [beq_eq_false_iff_ne]
          intro hcon
          exact hnd'.1 (hcon ▸ List.mem_map_of_mem _ hgt)
        by_cases hc : (h.is_active && isInside loc.latitude
            loc.longitude h) = true
        · rw [checkGeofences, List.filterMap_cons, if_pos hc,
            List.countP_cons, ← checkGeofences,
            ih g hnd'.2 hgt]
          simp [hne]
        · rw [checkGeofences, List.filterMap_cons, if_neg hc,
            ← checkGeofences, ih g hnd'.2 hgt]

/-- C1 amended: on the event-driven path, the evaluation of a position
update emits no `entry`/`exit` events at all — every produced event is a
`location_update` — and, for distinct region ids, exactly one
`location_update` event is produced for each active region containing
the new position (zero for the others).  Entry/exit transitions are
produced only by the periodic diff-against-snapshot path (`checkGeofence`,
see C8); `checkGeofences` never reads the membership snapshot. -/
theorem checkGeofences_no_entry_exit :
    (∀ (isInside : ℚ → ℚ → Geofence → Bool) (gfs : List Geofence)
        (loc : LocationData) (now : Nat) (e : GeofenceEvent),
      e ∈ checkGeofences isInside gfs loc now →
      e.type = EventType.location_update) ∧
    (∀ (isInside : ℚ → ℚ → Geofence → Bool) (gfs : List Geofence)
        (loc : LocationData) (now : Nat) (g : Geofence),
      (gfs.map (fun x => x.id)).Nodup → g ∈ gfs →
      (checkGeofences isInside gfs loc now).countP
          (fun e => e.geofence_id == g.id) =
        if g.is_active && isInside loc.latitude loc.longitude g then 1
        else 0) :=
  ⟨fun isInside gfs loc now e he =>
      (checkGeofences_mem isInside gfs loc now e he).1,
   fun isInside gfs loc now g hnd hg =>
      checkGeofences_countP_eq isInside loc now gfs g hnd hg⟩

/-- A concrete, computable membership test (point exactly at the
region's center) used to evaluate the evaluator theorems on explicit
inputs. -/
def atCenter (lat lon : ℚ) (g : Geofence) : Bool :=
  decide (g.latitude = lat ∧ g.longitude = lon)

def c1gA : Geofence :=
  { id := "gA", name := "A", latitude := 1, longitude := 0, radius := 2 }

def c1gB : Geofence :=
  { id := "gB", name := "B", latitude := 50, longitude := 50, radius := 2 }

def c1loc : LocationData := { user_id := "P", latitude := 1, longitude := 0 }

def c1event : GeofenceEvent :=
  { type := .location_update, geofence_id := "gA", geofence_name := "A"
    user_id := "P", timestamp := 7, location := some (1, 0) }

/-- Witness for C1's amended theorem: a concrete two-region table with
distinct ids; the position occupies region gA, which yields exactly one
`location_update` event (and that event's type is `location_update`). -/
theorem checkGeofences_no_entry_exit_witness :
    (c1event ∈ checkGeofences atCenter [c1gA, c1gB] c1loc 7 ∧
      c1event.type = EventType.location_update) ∧
    ((([c1gA, c1gB].map (fun x => x.id)).Nodup ∧ c1gA ∈ [c1gA, c1gB]) ∧
      (checkGeofences atCenter [c1gA, c1gB] c1loc 7).countP
          (fun e => e.geofence_id == c1gA.id) =
        if c1gA.is_active && atCenter c1loc.latitude c1loc.longitude c1gA
        then 1 else 0) :=
  ⟨⟨by decide,
    checkGeofences_no_entry_exit.1 atCenter [c1gA, c1gB] c1loc 7 c1event
      (by decide)⟩,
   ⟨⟨by decide, by decide⟩,
    checkGeofences_no_entry_exit.2 atCenter [c1gA, c1gB] c1loc 7 c1gA
      (by decide) (by decide)⟩⟩

theorem turfDistance_self (p : TurfPoint) : turfDistance p p = 0 := by
  rw [turfDistance]
  simp only [sub_self, degreesToRadians, zero_mul, zero_div]
  norm_num [Real.sin_zero, Real.sqrt_zero, Real.sqrt_one, jsAtan2,
    Real.arctan_zero]

def c1geofence : Geofence :=
  { id := "g1", name := "r", latitude := 0, longitude := 0, radius := 90 }

def c1transLoc : LocationData :=
  { user_id := "P", latitude := 0, longitude := 0 }

/-- C1 is false as stated: principal P's first-ever position lies inside
the active region (distance 0 from its center, radius 90 m, with the
source's real point-in-geofence test), i.e. an outside→inside
transition, yet the event-driven evaluation emits zero `entry` events —
it emits exactly the one `location_update` event.  The membership
snapshot (empty here) is not even consulted by this path. -/
theorem c1_no_entry_on_first_inside_position :
    (checkGeofences isPointInGeofenceB [c1geofence] c1transLoc 3).countP
        (fun e => e.type == EventType.entry) = 0 ∧
    (checkGeofences isPointInGeofenceB [c1geofence] c1transLoc 3).countP
        (fun e => e.type == EventType.location_update) = 1 := by
  have hin : isPointInGeofenceB c1transLoc.latitude c1transLoc.longitude
      c1geofence = true := by
    rw [isPointInGeofenceB]
    apply decide_eq_true
    show turfDistance (TurfPoint.mk (((0:ℚ)):ℝ) (((0:ℚ)):ℝ))
      (TurfPoint.mk (((0:ℚ)):ℝ) (((0:ℚ)):ℝ)) ≤ (((90:ℚ)):ℝ)
    rw [turfDistance_self]
    norm_num
  have hact : c1geofence.is_active = true := rfl
  rw [checkGeofences, List.filterMap_cons, if_pos (by rw [hact, hin]; rfl)]
  rw [List.filterMap_nil, List.countP_cons, List.countP_cons,
    List.countP_nil]
  simp

theorem sin_sq_swap (x y : ℝ) :
    Real.sin (degreesToRadians (x - y) / 2) ^ 2 =
      Real.sin ((y - x) * Real.pi / 180 / 2) *
        Real.sin ((y - x) * Real.pi / 180 / 2) := by
  have hx : (y - x) * Real.pi / 180 / 2 = -(degreesToRadians (x - y) / 2) := by
    rw [degreesToRadians]
    ring
  rw [hx, Real.sin_neg]
  ring

theorem turfDistance_eq_haversine (pLat pLon cLat cLon : ℝ) :
    turfDistance (TurfPoint.mk cLon cLat) (TurfPoint.mk pLon pLat) =
      haversineDistanceMeters pLat pLon cLat cLon := by
  rw [turfDistance, haversineDistanceMeters]
  simp only []
  rw [sin_sq_swap pLat cLat, sin_sq_swap pLon cLon]
  rw [degreesToRadians, degreesToRadians]
  ring_nf

/-- C9: the point-in-region test is true exactly when the great-circle
(haversine) distance in meters from the point to the region's center is
at most the region's radius — the boundary comparison is the inclusive
`<=`, so a point at distance 99.9 m from the center of a 100 m region is
inside and one at distance 100.1 m is outside. -/
theorem isPointInGeofence_iff_haversine (pLat pLon : ℚ) (g : Geofence) :
    isPointInGeofence pLat pLon g ↔
      haversineDistanceMeters (pLat : ℝ) (pLon : ℝ) (g.latitude : ℝ)
        (g.longitude : ℝ) ≤ (g.radius : ℝ) := by
  rw [isPointInGeofence, turfDistance_eq_haversine]

theorem filterMap_if_eq_filter_map {α β : Type} (p : α → Bool) (f : α → β)
    (l : List α) :
    l.filterMap (fun a => if p a then some (f a) else none) =
      (l.filter p).map f := by
  induction l with
  | nil => rfl
  | cons a t ih =>
      by_cases h : p a <;>
        simp [List.filterMap_cons, List.filter_cons, h, ih]

/-- The push condition of the `getNearbyUsers` loop, as one boolean:
not skipped by the exclude test, and within `radius` of the query
point. -/
def nearbyKeep {α : Type} [LinearOrderedField α]
    (dist : ℚ → ℚ → ℚ → ℚ → α) (latitude longitude : ℚ) (radius : α)
    (excludeUserId : Option String) (location : LocationData) : Bool :=
  !excludedFromNearby excludeUserId location &&
    dist latitude longitude location.latitude location.longitude ≤ radius

/-- The annotation `{...location, distance: Math.round(distance)}`. -/
def nearbyAnnotate {α : Type} [LinearOrderedField α] [FloorRing α]
    (dist : ℚ → ℚ → ℚ → ℚ → α) (latitude longitude : ℚ)
    (location : LocationData) : NearbyUser :=
  { location := location
    distance := jsRound (dist latitude longitude location.latitude
      location.longitude) }

/-- C10: for every distance function (the source passes its haversine
`calculateDistance`), query center, radius and optional excluded id,
`getNearbyUsers` returns a list sorted in non-decreasing order of the
rounded `distance` annotation, and its elements are exactly (as a
permutation produced by the final sort) the stored current positions
that are not the excluded principal and lie within `radius`, each
annotated with its distance rounded to the nearest meter. -/
theorem getNearbyUsers_sorted_and_complete {α : Type}
    [LinearOrderedField α] [FloorRing α] (dist : ℚ → ℚ → ℚ → ℚ → α)
    (svc : LocationService) (latitude longitude : ℚ) (radius : α)
    (excludeUserId : Option String) :
    (getNearbyUsers dist svc latitude longitude radius
        excludeUserId).Pairwise (fun a b => a.distance ≤ b.distance) ∧
    (getNearbyUsers dist svc latitude longitude radius excludeUserId).Perm
      (((getAllUserLocations svc).filter
          (nearbyKeep dist latitude longitude radius excludeUserId)).map
        (nearbyAnnotate dist latitude longitude)) := by
  have hfun : (fun location : LocationData =>
      if excludedFromNearby excludeUserId location then none
      else
        if dist latitude longitude location.latitude location.longitude
            ≤ radius then
          some ({ location := location
                  distance := jsRound (dist latitude longitude
                    location.latitude location.longitude) } : NearbyUser)
        else none) =
      (fun location : LocationData =>
        if nearbyKeep dist latitude longitude radius excludeUserId location
        then some (nearbyAnnotate dist latitude longitude location)
        else none) := by
    funext location
    by_cases hex : excludedFromNearby excludeUserId location = true
    · simp [nearbyKeep, hex]
    · by_cases hd : dist latitude longitude location.latitude
          location.longitude ≤ radius
      · simp [nearbyKeep, hex, hd, nearbyAnnotate]
      · simp [nearbyKeep, hex, hd]
  constructor
  · refine List.Pairwise.imp ?_ (List.sorted_mergeSort ?_ ?_ _)
    · intro a b h
      exact of_decide_eq_true h
    · intro a b c hab hbc
      exact decide_eq_true (le_trans (of_decide_eq_true hab)
        (of_decide_eq_true hbc))
    · intro a b
      rcases le_total a.distance b.distance with h | h
      · rw [decide_eq_true h, Bool.true_or]
      · rw [decide_eq_true h, Bool.or_true]
  · rw [getNearbyUsers, getAllUserLocations]
    simp only []
    rw [hfun, filterMap_if_eq_filter_map]
    exact List.mergeSort_perm _ _

theorem mem_of_contains (l : List String) (a : String)
    (h : l.contains a = true) : a ∈ l := by
  unfold List.contains at h
  rw [List.elem_eq_mem] at h
  exact of_decide_eq_true h

theorem processProximityEvent_cases
    (connectedUsers : List (String × ConnectedUser))
    (geo : GeofencingService) (membership : String → List String)
    (currentUser : ConnectedUser) (st : AlertState) (ev : GeofenceEvent) :
    processProximityEvent connectedUsers geo membership currentUser st ev =
      (st, []) ∨
    ((sentAlertsFor st ev.geofence_id).contains currentUser.id = false ∧
      ∃ alerts : List ProximityAlert,
        processProximityEvent connectedUsers geo membership currentUser
          st ev =
          (mapSet st ev.geofence_id
            (sentAlertsFor st ev.geofence_id ++ [currentUser.id]), alerts) ∧
        (alerts = [] ∨ ∃ a' : ProximityAlert, alerts = [a'] ∧
          a'.triggered_by = currentUser.id ∧
          a'.geofence_id = ev.geofence_id)) := by
  simp only [processProximityEvent]
  split
  · split
    · exact Or.inl rfl
    · split
      · exact Or.inl rfl
      · split
        · split
          · exact Or.inl rfl
          · rename_i hnc
            refine Or.inr ⟨by simpa using hnc, _, rfl, ?_⟩
            rcases htf : findUserSocket connectedUsers
                (membership ev.geofence_id) "technician" with _ | ut <;>
              rcases hcf : findUserSocket connectedUsers
                (membership ev.geofence_id) "customer" with _ | uc <;>
              by_cases htt : currentUser.user_type = "technician" <;>
              by_cases htc : currentUser.user_type = "customer" <;>
              first
                | (exact absurd (htt.symm.trans htc) (by decide))
                | simp [htt, htc]
        · exact Or.inl rfl
  · exact Or.inl rfl

/-- The number of alerts in `alerts` whose emission was triggered by
principal `p` for region `g`. -/
def countPG (p g : String) (alerts : List ProximityAlert) : Nat :=
  alerts.countP (fun a => a.triggered_by == p && a.geofence_id == g)

/-- The dedup invariant of one processing segment, for a fixed principal
`p` and region `g`: the segment emits at most one `(p, g)`-triggered
alert; it emits none if `p` is already marked for `g`; if it emits one,
`p` is marked afterwards; and a mark is never removed. -/
def AlertBound (p g : String) (st st' : AlertState)
    (alerts : List ProximityAlert) : Prop :=
  countPG p g alerts ≤ 1 ∧
  ((sentAlertsFor st g).contains p = true → countPG p g alerts = 0) ∧
  (1 ≤ countPG p g alerts → (sentAlertsFor st' g).contains p = true) ∧
  ((sentAlertsFor st g).contains p = true →
    (sentAlertsFor st' g).contains p = true)

theorem sentAlerts_mapSet_mono (st : AlertState) (gid : String)
    (add : List String) (g p : String)
    (h : (sentAlertsFor st g).contains p = true) :
    (sentAlertsFor (mapSet st gid (sentAlertsFor st gid ++ add))
      g).contains p = true := by
  by_cases hg : g = gid
  · subst hg
    rw [sentAlertsFor, mapGet?_mapSet_self, Option.getD_some]
    exact contains_of_mem _ _
      (List.mem_append.mpr (Or.inl (mem_of_contains _ _ h)))
  · rw [sentAlertsFor, mapGet?_mapSet_other st gid g _ hg]
    exact h

theorem sentAlerts_mapSet_self_contains (st : AlertState) (gid : String)
    (cur : String) :
    (sentAlertsFor (mapSet st gid (sentAlertsFor st gid ++ [cur]))
      gid).contains cur = true := by
  rw [sentAlertsFor, mapGet?_mapSet_self, Option.getD_some]
  exact contains_of_mem _ _
    (List.mem_append.mpr (Or.inr (List.mem_singleton.mpr rfl)))

theorem processProximityEvent_bound
    (connectedUsers : List (String × ConnectedUser))
    (geo : GeofencingService) (membership : String → List String)
    (currentUser : ConnectedUser) (st : AlertState) (ev : GeofenceEvent)
    (p g : String) :
    AlertBound p g st
      (processProximityEvent connectedUsers geo membership currentUser
        st ev).1
      (processProximityEvent connectedUsers geo membership currentUser
        st ev).2 := by
  rcases processProximityEvent_cases connectedUsers geo membership
      currentUser st ev with heq | ⟨hnc, alerts, heq, hshape⟩
  · rw [heq]
    exact ⟨by simp [countPG], fun _ => by simp [countPG],
      by simp [countPG], fun h => h⟩
  · rw [heq]
    rcases hshape with rfl | ⟨a', rfl, hat, hag⟩
    · exact ⟨by simp [countPG], fun _ => by simp [countPG],
        by simp [countPG], fun h => sentAlerts_mapSet_mono st _ _ g p h⟩
    · by_cases hpred : (a'.triggered_by == p && a'.geofence_id == g) = true
      · have hp : p = currentUser.id := by
          have h1 := (Bool.and_eq_true _ _).mp hpred
          have := beq_iff_eq.mp h1.1
          rw [← this, hat]
        have hgid : g = ev.geofence_id := by
          have h1 := (Bool.and_eq_true _ _).mp hpred
          have := beq_iff_eq.mp h1.2
          rw [← this, hag]
        have hcnt : countPG p g [a'] = 1 := by
          simp [countPG, hpred]
        refine ⟨by rw [hcnt], ?_, ?_, ?_⟩
        · intro hcon
          rw [hp, hgid] at hcon
          rw [hcon] at hnc
          cases hnc
        · intro _
          rw [hp, hgid]
          exact sentAlerts_mapSet_self_contains st ev.geofence_id
            currentUser.id
        · intro h
          exact sentAlerts_mapSet_mono st _ _ g p h
      · have hcnt : countPG p g [a'] = 0 := by
          simp only [countPG, List.countP_cons, List.countP_nil]
          rw [if_neg hpred]
        refine ⟨by rw [hcnt]; omega, fun _ => hcnt, ?_, ?_⟩
        · intro hcon
          rw [hcnt] at hcon
          omega
        · intro h
          exact sentAlerts_mapSet_mono st _ _ g p h

theorem AlertBound.comp {p g : String} {st1 st2 st3 : AlertState}
    {l1 l2 : List ProximityAlert} (h1 : AlertBound p g st1 st2 l1)
    (h2 : AlertBound p g st2 st3 l2) :
    AlertBound p g st1 st3 (l1 ++ l2) := by
  obtain ⟨a1, b1, c1, d1⟩ := h1
  obtain ⟨a2, b2, c2, d2⟩ := h2
  have hcnt : countPG p g (l1 ++ l2) = countPG p g l1 + countPG p g l2 :=
    List.countP_append _ _ _
  refine ⟨?_, ?_, ?_, fun h => d2 (d1 h)⟩
  · rw [hcnt]
    rcases Nat.eq_zero_or_pos (countPG p g l1) with hz | hpos
    · rw [hz]
      omega
    · have := b2 (c1 hpos)
      omega
  · intro h
    rw [hcnt, b1 h, b2 (d1 h)]
  · intro h
    rw [hcnt] at h
    rcases Nat.eq_zero_or_pos (countPG p g l2) with hz | hpos
    · rw [hz] at h
      have h1' : 1 ≤ countPG p g l1 := by omega
      exact d2 (c1 h1')
    · exact c2 hpos

theorem checkAE_bound (connectedUsers : List (String × ConnectedUser))
    (geo : GeofencingService) (membership : String → List String)
    (currentUser : ConnectedUser) (p g : String) :
    ∀ (events : List GeofenceEvent) (st : AlertState),
      AlertBound p g st
        (checkAndEmitProximityAlerts connectedUsers geo membership
          currentUser st events).1
        (checkAndEmitProximityAlerts connectedUsers geo membership
          currentUser st events).2 := by
  intro events
  induction events with
  | nil =>
      intro st
      rw [checkAndEmitProximityAlerts]
      exact ⟨by simp [countPG], fun _ => by simp [countPG],
        by simp [countPG], fun h => h⟩
  | cons ev evs ih =>
      intro st
      rw [checkAndEmitProximityAlerts]
      simp only []
      exact AlertBound.comp
        (processProximityEvent_bound connectedUsers geo membership
          currentUser st ev p g)
        (ih _)

theorem runCalls_bound (p g : String) :
    ∀ (calls : List ProximityCall) (st : AlertState),
      AlertBound p g st (runProximityCalls calls st).1
        (runProximityCalls calls st).2 := by
  intro calls
  induction calls with
  | nil =>
      intro st
      rw [runProximityCalls]
      exact ⟨by simp [countPG], fun _ => by simp [countPG],
        by simp [countPG], fun h => h⟩
  | cons c cs ih =>
      intro st
      rw [runProximityCalls]
      simp only []
      exact AlertBound.comp
        (checkAE_bound c.connectedUsers c.geo c.membership c.currentUser
          p g c.events st)
        (ih _)

theorem processProximityEvent_pair_absent
    (connectedUsers : List (String × ConnectedUser))
    (geo : GeofencingService) (membership : String → List String)
    (currentUser : ConnectedUser) (st : AlertState) (ev : GeofenceEvent)
    (h : hasUserOfType connectedUsers (membership ev.geofence_id)
        "customer" = false ∨
      hasUserOfType connectedUsers (membership ev.geofence_id)
        "technician" = false) :
    processProximityEvent connectedUsers geo membership currentUser st ev =
      (st, []) := by
  simp only [processProximityEvent]
  split
  · split
    · rfl
    · split
      · rfl
      · split
        · rename_i hpair
          rcases h with h | h <;> rw [h] at hpair <;> simp at hpair
        · rfl
  · rfl

/-- C2 amended: the alert-sent marker is never cleared.  A membership
update that leaves the pairing-scoped region without at least one member
of each required role leaves the marker map exactly as it was (and emits
nothing), and across any sequence of position updates a marked
(region, principal) pair stays marked — so a principal who triggered an
alert, left, and re-entered while the pair condition holds again does
NOT receive a second proximity alert. -/
theorem proximity_marker_never_cleared :
    (∀ (connectedUsers : List (String × ConnectedUser))
        (geo : GeofencingService) (membership : String → List String)
        (currentUser : ConnectedUser) (st : AlertState)
        (ev : GeofenceEvent),
      hasUserOfType connectedUsers (membership ev.geofence_id)
          "customer" = false ∨
      hasUserOfType connectedUsers (membership ev.geofence_id)
          "technician" = false →
      processProximityEvent connectedUsers geo membership currentUser
        st ev = (st, [])) ∧
    (∀ (calls : List ProximityCall) (st : AlertState) (g p : String),
      (sentAlertsFor st g).contains p = true →
      (sentAlertsFor (runProximityCalls calls st).1 g).contains p
        = true) :=
  ⟨processProximityEvent_pair_absent,
   fun calls st g p h => (runCalls_bound p g calls st).2.2.2 h⟩

/-- The region of the C2 counterexample (pairing-scoped via its
service-request id). -/
def c2geofence : Geofence :=
  { id := "g1", name := "r", latitude := 0, longitude := 0, radius := 50
    serviceRequestId := some "sr1" }

/-- The geofencing state of the C2 counterexample. -/
def c2geo : GeofencingService :=
  { geofences := [("g1", c2geofence)], activeGeofences := ["g1"]
    previousUsersInGeofence := [] }

/-- C2 counterexample connection registry: only customer "A" is
connected. -/
def c2connected : List (String × ConnectedUser) :=
  [("s1", { id := "A", user_type := "customer" })]

/-- C2 counterexample membership: only "A" is inside the region (the
technician has left). -/
def c2membership : String → List String := fun _ => ["A"]

/-- The C2 counterexample triggering user. -/
def c2user : ConnectedUser := { id := "A", user_type := "customer" }

/-- The C2 counterexample event: "A"'s position update inside "g1". -/
def c2event : GeofenceEvent :=
  { type := .location_update, geofence_id := "g1", geofence_name := "r"
    user_id := "A", timestamp := 0 }

/-- The C2 counterexample call. -/
def c2call : ProximityCall :=
  { connectedUsers := c2connected, geo := c2geo
    membership := c2membership, currentUser := c2user
    events := [c2event] }

/-- C2 is false as stated: after a membership update that leaves region
"g1" without the required technician role (the pairing condition is
false), the alert-sent marker for "g1" still holds "A" — it is not
cleared, so a re-entering "A" can never receive a second alert. -/
theorem c2_marker_not_cleared :
    hasUserOfType c2connected (c2membership "g1") "technician" = false ∧
    (runProximityCalls [c2call] [("g1", ["A"])]).1 = [("g1", ["A"])] :=
  ⟨rfl, rfl⟩

/-- Witness for C2's amended theorem at the concrete state of the
counterexample: the pair-absent update leaves state and output
unchanged, and the marked pair ("g1", "A") stays marked across the
run. -/
theorem proximity_marker_never_cleared_witness :
    ((hasUserOfType c2connected (c2membership c2event.geofence_id)
        "customer" = false ∨
      hasUserOfType c2connected (c2membership c2event.geofence_id)
        "technician" = false) ∧
      processProximityEvent c2connected c2geo c2membership c2user
        [("g1", ["A"])] c2event = ([("g1", ["A"])], [])) ∧
    ((sentAlertsFor [("g1", ["A"])] "g1").contains "A" = true ∧
      (sentAlertsFor (runProximityCalls [c2call]
        [("g1", ["A"])]).1 "g1").contains "A" = true) :=
  ⟨⟨Or.inr rfl,
    proximity_marker_never_cleared.1 c2connected c2geo c2membership c2user
      [("g1", ["A"])] c2event (Or.inr rfl)⟩,
   ⟨rfl,
    proximity_marker_never_cleared.2 [c2call] [("g1", ["A"])] "g1" "A"
      rfl⟩⟩

/-- C3 amended: across any sequence of position updates, at most one
proximity-alert emission is *triggered by* a given principal for a given
region — the marker keyed by the triggering principal is set on first
emission and never cleared.  (The claim's per-*recipient* bound fails:
see the counterexample, where the recipient is the first connected user
of the triggering principal's role.) -/
theorem proximity_alert_triggered_at_most_once
    (calls : List ProximityCall) (st : AlertState) (p g : String) :
    countPG p g (runProximityCalls calls st).2 ≤ 1 :=
  (runCalls_bound p g calls st).1

/-- The region of the C3 counterexample. -/
def c3geofence : Geofence :=
  { id := "g1", name := "r", latitude := 0, longitude := 0, radius := 50
    serviceRequestId := some "sr1" }

/-- The geofencing state of the C3 counterexample. -/
def c3geo : GeofencingService :=
  { geofences := [("g1", c3geofence)], activeGeofences := ["g1"]
    previousUsersInGeofence := [] }

/-- C3 counterexample registry: technicians "T1" and "T2" and customer
"C", all connected, "T1" connected first. -/
def c3connected : List (String × ConnectedUser) :=
  [("s1", { id := "T1", user_type := "technician" }),
   ("s2", { id := "T2", user_type := "technician" }),
   ("s3", { id := "C", user_type := "customer" })]

/-- C3 counterexample membership: all three principals are inside the
region throughout (the pair stays present; no pair-absent transition
occurs). -/
def c3membership : String → List String := fun _ => ["T1", "T2", "C"]

/-- The event of T1's update inside "g1". -/
def c3event1 : GeofenceEvent :=
  { type := .location_update, geofence_id := "g1", geofence_name := "r"
    user_id := "T1", timestamp := 0 }

/-- The event of T2's update inside "g1". -/
def c3event2 : GeofenceEvent :=
  { type := .location_update, geofence_id := "g1", geofence_name := "r"
    user_id := "T2", timestamp := 1 }

/-- T1's position-update handling. -/
def c3call1 : ProximityCall :=
  { connectedUsers := c3connected, geo := c3geo
    membership := c3membership
    currentUser := { id := "T1", user_type := "technician" }
    events := [c3event1] }

/-- T2's position-update handling. -/
def c3call2 : ProximityCall :=
  { connectedUsers := c3connected, geo := c3geo
    membership := c3membership
    currentUser := { id := "T2", user_type := "technician" }
    events := [c3event2] }

/-- C3 is false as stated: with two technicians and one customer all
inside the pairing region and the pair present throughout (no
pair-absent transition), principal "T1" is *delivered* two proximity
alerts for region "g1" — T2's trigger is deduplicated under T2's id but
the alert is emitted to the first connected technician's socket, which
is T1's. -/
theorem c3_two_alerts_delivered_to_one_principal :
    ((runProximityCalls [c3call1, c3call2] []).2.countP
      (fun a => a.recipient == "T1" && a.geofence_id == "g1")) = 2 := by
  rfl
